import Mathlib

/-!
Shallow embedding of the consumer-management command module of natscli
(`nats/consumer_command.go`) together with proofs about its configuration
resolution, validation, leader step-down and subscription logic.

Conventions used throughout the embedding:
* `kingpin.Fatalf` / returned Go `error` values are both modelled as
  `Except.error` with a message constant;
* interactive `survey.AskOne` prompts are modelled by a `Prompts` record
  holding the answer each prompt would return;
* Go durations (`time.Duration`) are modelled as `Int` nanoseconds;
* `uint64` fields are modelled as `Nat`, `int` fields as `Int`;
* functions of the repository that live outside the embedded file
  (`parseDurationString`) are passed as explicit function parameters.
-/

set_option autoImplicit false

namespace api

/-- Acknowledgement policy enum of the jsm.go api package. -/
inductive AckPolicy where
  | AckNone
  | AckAll
  | AckExplicit
deriving DecidableEq, Repr

/-- Replay policy enum of the jsm.go api package. -/
inductive ReplayPolicy where
  | ReplayInstant
  | ReplayOriginal
deriving DecidableEq, Repr

/-- Deliver policy enum of the jsm.go api package. -/
inductive DeliverPolicy where
  | DeliverAll
  | DeliverLast
  | DeliverNew
  | DeliverByStartSequence
  | DeliverByStartTime
deriving DecidableEq, Repr

/-- The consumer configuration record (api.ConsumerConfig) as used by
`consumer_command.go`.  Field defaults are the Go zero values. -/
structure ConsumerConfig where
  Durable : String := ""
  DeliverSubject : String := ""
  DeliverPolicy : api.DeliverPolicy := api.DeliverPolicy.DeliverAll
  OptStartSeq : Nat := 0
  OptStartTime : Option Int := Option.none
  AckPolicy : api.AckPolicy := api.AckPolicy.AckExplicit
  AckWait : Int := 0
  MaxDeliver : Int := 0
  FilterSubject : String := ""
  ReplayPolicy : api.ReplayPolicy := api.ReplayPolicy.ReplayInstant
  SampleFrequency : String := ""
  RateLimit : Nat := 0
  MaxAckPending : Int := 0
deriving DecidableEq, Repr

end api

/-- Mutable flag state of the `consumerCmd` struct.  The default value of each
field is the kingpin flag default declared in `configureConsumerCommand`
(`--wait` defaults to `-1s` i.e. -1000000000ns, `--sample` to `-1`,
`--filter` to `"_unset_"`, `--max-pending` to `-1`, `--bps` to `0`). -/
structure consumerCmd where
  consumer : String := ""
  stream : String := ""
  destination : String := ""
  ack : Bool := true
  bpsRateLimit : Nat := 0
  maxAckPending : Int := -1
  maxDeliver : Int := 0
  pull : Bool := false
  replayPolicy : String := ""
  startPolicy : String := ""
  ackPolicy : String := ""
  ackWait : Int := -1000000000
  samplePct : Int := -1
  filterSubject : String := "_unset_"
  delivery : String := ""
  ephemeral : Bool := false
deriving DecidableEq, Repr

/-- Answers that the interactive `survey.AskOne` prompts of `prepareConfig`
would return, one field per distinct prompt site. -/
structure Prompts where
  consumerName : String := ""
  deliveryTarget : String := ""
  startPolicyAns : String := ""
  ackPolicyAns : String := ""
  replayPolicyAns : String := ""
  replayPolicyAns2 : String := ""
  filterSubjectAns : String := ""
  maxDeliverAns : Int := 0
  maxAckPendingAns : Int := 0
deriving DecidableEq, Repr

def msgInvalidAckPolicy : String := "invalid ack policy"

def msgInvalidReplayPolicy : String := "invalid replay policy"

def msgSamplePercent : String := "sample percent is not between 0 and 100"

def msgDurableName : String := "durable name can not contain ., *, >"

def msgEphemeralPush : String := "ephemeral Consumers has to be push-based."

def msgStartingDelta : String := "could not parse starting delta"

def msgRateLimitPush : String := "rate limits are only possible on Push consumers"

def msgNameMismatch : String := "durable consumer name in file does not match CLI consumer name"

/-- Character-wise lower-casing of a string, the model of Go
`strings.ToLower` (ASCII policy strings only are ever compared against). -/
def toLowerStr (s : String) : String := String.mk (s.data.map Char.toLower)

/-- Embedding of `replayPolicyFromString` (lines 354-364): lower-cases the
input and maps it to the enum, aborting on anything else. -/
def replayPolicyFromString (p : String) : Except String api.ReplayPolicy :=
  if toLowerStr p = "instant" then Except.ok api.ReplayPolicy.ReplayInstant
  else if toLowerStr p = "original" then Except.ok api.ReplayPolicy.ReplayOriginal
  else Except.error msgInvalidReplayPolicy

/-- Embedding of `ackPolicyFromString` (lines 366-379). -/
def ackPolicyFromString (p : String) : Except String api.AckPolicy :=
  if toLowerStr p = "none" then Except.ok api.AckPolicy.AckNone
  else if toLowerStr p = "all" then Except.ok api.AckPolicy.AckAll
  else if toLowerStr p = "explicit" then Except.ok api.AckPolicy.AckExplicit
  else Except.error msgInvalidAckPolicy

/-- Embedding of `sampleFreqFromString` (lines 381-391).  The Go method reads
`c.samplePct` (not its argument) when formatting the string; both call sites
pass `c.samplePct` for `s`, and we keep both parameters to mirror that. -/
def sampleFreqFromString (samplePct : Int) (s : Int) : Except String String :=
  if s > 100 ∨ s < 0 then Except.error msgSamplePercent
  else if s > 0 then Except.ok (toString samplePct)
  else Except.ok ""

/-- Embedding of `defaultConsumer` (lines 393-398). -/
def defaultConsumer : api.ConsumerConfig :=
  { AckPolicy := api.AckPolicy.AckExplicit
    ReplayPolicy := api.ReplayPolicy.ReplayInstant }

/-- The regular expression check on durable names in `prepareConfig`
(line 525): `regexp.MatchString` with pattern dot-or-star-or-gt. -/
def durableForbidden (s : String) : Bool :=
  s.data.any (fun ch => ch == '.' || ch == '*' || ch == '>')

/-- Embedding of `setStartPolicy` (lines 400-422).  `parseDur` stands for the
repository helper `parseDurationString` (defined outside this file);
`Option.none` models its error return.  `now` models `time.Now()` so that the
`DeliverByStartTime` branch can compute `now - d`. -/
def setStartPolicy (cfg : api.ConsumerConfig) (policy : String)
    (parseDur : String → Option Int) (now : Int) : Except String api.ConsumerConfig :=
  if policy = "" then Except.ok cfg
  else if policy = "all" then Except.ok { cfg with DeliverPolicy := api.DeliverPolicy.DeliverAll }
  else if policy = "last" then Except.ok { cfg with DeliverPolicy := api.DeliverPolicy.DeliverLast }
  else if policy = "new" ∨ policy = "next" then
    Except.ok { cfg with DeliverPolicy := api.DeliverPolicy.DeliverNew }
  else if policy.data.all Char.isDigit then
    Except.ok { cfg with DeliverPolicy := api.DeliverPolicy.DeliverByStartSequence
                         OptStartSeq := policy.data.foldl (fun n ch => n * 10 + (ch.toNat - 48)) 0 }
  else
    match parseDur policy with
    | Option.none => Except.error msgStartingDelta
    | Option.some d =>
        Except.ok { cfg with DeliverPolicy := api.DeliverPolicy.DeliverByStartTime
                             OptStartTime := Option.some (now - d) }

/-- Embedding of the ack-wait override of `cpAction` (lines 432-434). -/
def cpAckWait (c : consumerCmd) (cfg : api.ConsumerConfig) : api.ConsumerConfig :=
  if c.ackWait > 0 then { cfg with AckWait := c.ackWait } else cfg

/-- Embedding of the sampling override of `cpAction` (lines 436-438): a
sample percentage other than the `-1` sentinel is validated by
`sampleFreqFromString` and stored. -/
def cpSample (c : consumerCmd) (cfg : api.ConsumerConfig) :
    Except String api.ConsumerConfig :=
  match (if c.samplePct ≠ -1 then sampleFreqFromString c.samplePct c.samplePct
         else Except.ok cfg.SampleFrequency) with
  | Except.error e => Except.error e
  | Except.ok sf => Except.ok { cfg with SampleFrequency := sf }

/-- Embedding of the start-policy override of `cpAction` (lines 440-442). -/
def cpStart (c : consumerCmd) (cfg : api.ConsumerConfig)
    (parseDur : String → Option Int) (now : Int) : Except String api.ConsumerConfig :=
  if c.startPolicy ≠ "" then setStartPolicy cfg c.startPolicy parseDur now else Except.ok cfg

/-- Embedding of the durable-name assignment of `cpAction` (lines 444-448):
the destination name, or the empty name for an ephemeral copy. -/
def cpDurable (c : consumerCmd) (cfg : api.ConsumerConfig) : api.ConsumerConfig :=
  if c.ephemeral then { cfg with Durable := "" } else { cfg with Durable := c.destination }

/-- Embedding of the delivery-target override of `cpAction`
(lines 450-452). -/
def cpDelivery (c : consumerCmd) (cfg : api.ConsumerConfig) : api.ConsumerConfig :=
  if c.delivery ≠ "" then { cfg with DeliverSubject := c.delivery } else cfg

/-- Embedding of the pull override of `cpAction` (lines 454-457): clears the
delivery subject and forces the `explicit` ack policy string.  The second
component is the value of the mutated `c.ackPolicy` flag. -/
def cpPull (c : consumerCmd) (cfg : api.ConsumerConfig) : api.ConsumerConfig × String :=
  if c.pull then ({ cfg with DeliverSubject := "" }, "explicit") else (cfg, c.ackPolicy)

/-- Embedding of the ack-policy override of `cpAction` (lines 459-461),
applied to the possibly pull-mutated ack policy string. -/
def cpAckPolicy (ackPol : String) (cfg : api.ConsumerConfig) :
    Except String api.ConsumerConfig :=
  match (if ackPol ≠ "" then ackPolicyFromString ackPol
         else Except.ok cfg.AckPolicy) with
  | Except.error e => Except.error e
  | Except.ok ap => Except.ok { cfg with AckPolicy := ap }

/-- Embedding of the filter override of `cpAction` (lines 463-465). -/
def cpFilter (c : consumerCmd) (cfg : api.ConsumerConfig) : api.ConsumerConfig :=
  if c.filterSubject ≠ "_unset_" then { cfg with FilterSubject := c.filterSubject } else cfg

/-- Embedding of the replay-policy override of `cpAction` (lines 467-469). -/
def cpReplay (c : consumerCmd) (cfg : api.ConsumerConfig) :
    Except String api.ConsumerConfig :=
  match (if c.replayPolicy ≠ "" then replayPolicyFromString c.replayPolicy
         else Except.ok cfg.ReplayPolicy) with
  | Except.error e => Except.error e
  | Except.ok rp => Except.ok { cfg with ReplayPolicy := rp }

/-- Embedding of the max-deliver override of `cpAction` (lines 471-473). -/
def cpMaxDeliver (c : consumerCmd) (cfg : api.ConsumerConfig) : api.ConsumerConfig :=
  if c.maxDeliver ≠ 0 then { cfg with MaxDeliver := c.maxDeliver } else cfg

/-- Embedding of the rate-limit override of `cpAction` (lines 475-477): note
that unlike `prepareConfig` there is no pull-mode check here. -/
def cpRateLimit (c : consumerCmd) (cfg : api.ConsumerConfig) : api.ConsumerConfig :=
  if c.bpsRateLimit ≠ 0 then { cfg with RateLimit := c.bpsRateLimit } else cfg

/-- Embedding of the max-ack-pending override of `cpAction`
(lines 479-481). -/
def cpMaxAckPending (c : consumerCmd) (cfg : api.ConsumerConfig) : api.ConsumerConfig :=
  if c.maxAckPending ≠ -1 then { cfg with MaxAckPending := c.maxAckPending } else cfg

/-- Embedding of the body of `cpAction` between loading the source
configuration and submitting it to the broker (lines 430-481), chaining the
override blocks above in source order.  `cfg0` is the source consumer
configuration; the result is the configuration handed to
`NewConsumerFromDefault`. -/
def cpConfig (c : consumerCmd) (cfg0 : api.ConsumerConfig)
    (parseDur : String → Option Int) (now : Int) : Except String api.ConsumerConfig :=
  let cfg := cpAckWait c cfg0
  match cpSample c cfg with
  | Except.error e => Except.error e
  | Except.ok cfg =>
  match cpStart c cfg parseDur now with
  | Except.error e => Except.error e
  | Except.ok cfg =>
  let cfg := cpDurable c cfg
  let cfg := cpDelivery c cfg
  let pc := cpPull c cfg
  match cpAckPolicy pc.2 pc.1 with
  | Except.error e => Except.error e
  | Except.ok cfg =>
  let cfg := cpFilter c cfg
  match cpReplay c cfg with
  | Except.error e => Except.error e
  | Except.ok cfg =>
  let cfg := cpMaxDeliver c cfg
  let cfg := cpRateLimit c cfg
  Except.ok (cpMaxAckPending c cfg)

/-- Embedding of the durable-name resolution block of `prepareConfig`
(lines 516-527): prompt for a consumer name when unnamed and non-ephemeral,
store it as the durable name, and reject names containing `.`, `*`, `>`. -/
def frontName (c0 : consumerCmd) (p : Prompts) :
    Except String (consumerCmd × api.ConsumerConfig) :=
  let c := if c0.consumer = "" ∧ ¬ c0.ephemeral then { c0 with consumer := p.consumerName } else c0
  let cfg := { defaultConsumer with Durable := c.consumer }
  if durableForbidden cfg.Durable then Except.error msgDurableName
  else Except.ok (c, cfg)

/-- Embedding of the mode-resolution block of `prepareConfig`
(lines 529-546): prompt for a delivery target when not in pull mode, reject
ephemeral pull consumers, record the delivery subject and force the explicit
ack policy when the subject is empty (pull mode). -/
def frontMode (c0 : consumerCmd) (p : Prompts) (cfg0 : api.ConsumerConfig) :
    Except String (consumerCmd × api.ConsumerConfig) :=
  let c := if ¬ c0.pull ∧ c0.delivery = "" then { c0 with delivery := p.deliveryTarget } else c0
  if c.ephemeral ∧ c.delivery = "" then Except.error msgEphemeralPush
  else
    let cfg := { cfg0 with DeliverSubject := c.delivery }
    let c := if c.delivery = "" then { c with ackPolicy := "explicit" } else c
    Except.ok (c, cfg)

/-- Embedding of the start-policy block of `prepareConfig` (lines 548-556):
prompt for a start policy when unset, then apply it. -/
def frontStart (c0 : consumerCmd) (p : Prompts) (cfg0 : api.ConsumerConfig)
    (parseDur : String → Option Int) (now : Int) :
    Except String (consumerCmd × api.ConsumerConfig) :=
  let c := if c0.startPolicy = "" then { c0 with startPolicy := p.startPolicyAns } else c0
  match setStartPolicy cfg0 c.startPolicy parseDur now with
  | Except.error e => Except.error e
  | Except.ok cfg => Except.ok (c, cfg)

/-- Embedding of the ack/replay prompt fallbacks of `prepareConfig`
(lines 558-576). -/
def frontPolicies (c0 : consumerCmd) (p : Prompts) : consumerCmd :=
  let c := if c0.ackPolicy = "" then { c0 with ackPolicy := p.ackPolicyAns } else c0
  if c.replayPolicy = "" then { c with replayPolicy := p.replayPolicyAns } else c

/-- Embedding of the first half of `prepareConfig` (lines 516-577), chaining
the blocks above.  It returns the mutated flag state together with the
partially built configuration. -/
def prepareConfigFront (c0 : consumerCmd) (p : Prompts)
    (parseDur : String → Option Int) (now : Int) :
    Except String (consumerCmd × api.ConsumerConfig) :=
  match frontName c0 p with
  | Except.error e => Except.error e
  | Except.ok (c, cfg) =>
    match frontMode c p cfg with
    | Except.error e => Except.error e
    | Except.ok (c, cfg) =>
      match frontStart c p cfg parseDur now with
      | Except.error e => Except.error e
      | Except.ok (c, cfg) => Except.ok (frontPolicies c p, cfg)

/-- Embedding of the ack-policy resolution of `prepareConfig`
(lines 578-581): parse the policy string and force `MaxDeliver = -1` when the
policy is `AckNone`. -/
def tailAckPolicy (c : consumerCmd) (cfg0 : api.ConsumerConfig) :
    Except String api.ConsumerConfig :=
  match ackPolicyFromString c.ackPolicy with
  | Except.error e => Except.error e
  | Except.ok ap =>
      let cfg := { cfg0 with AckPolicy := ap }
      Except.ok (if cfg.AckPolicy = api.AckPolicy.AckNone then { cfg with MaxDeliver := -1 } else cfg)

/-- Embedding of the ack-wait assignment of `prepareConfig` (lines 583-585). -/
def tailAckWait (c : consumerCmd) (cfg : api.ConsumerConfig) : api.ConsumerConfig :=
  if c.ackWait > 0 then { cfg with AckWait := c.ackWait } else cfg

/-- Embedding of the sampling block of `prepareConfig` (lines 587-593):
values above 100 abort, positive values are stored as a decimal string,
anything else leaves the field untouched. -/
def tailSample (c : consumerCmd) (cfg : api.ConsumerConfig) :
    Except String api.ConsumerConfig :=
  if c.samplePct > 0 ∧ c.samplePct > 100 then Except.error msgSamplePercent
  else Except.ok (if c.samplePct > 0 then { cfg with SampleFrequency := toString c.samplePct } else cfg)

/-- Embedding of the replay-policy block of `prepareConfig` (lines 595-611):
in push mode an unset replay policy is prompted for, and a non-empty replay
policy string is parsed and applied. -/
def tailReplay (c0 : consumerCmd) (p : Prompts) (cfg : api.ConsumerConfig) :
    Except String (consumerCmd × api.ConsumerConfig) :=
  let c := if cfg.DeliverSubject ≠ "" ∧ c0.replayPolicy = "" then
             { c0 with replayPolicy := p.replayPolicyAns2 } else c0
  match (if c.replayPolicy ≠ "" then replayPolicyFromString c.replayPolicy
         else Except.ok cfg.ReplayPolicy) with
  | Except.error e => Except.error e
  | Except.ok rp => Except.ok (c, { cfg with ReplayPolicy := rp })

/-- Embedding of the filter-subject block of `prepareConfig`
(lines 613-621). -/
def tailFilter (c0 : consumerCmd) (p : Prompts) (cfg : api.ConsumerConfig) :
    consumerCmd × api.ConsumerConfig :=
  let c := if c0.filterSubject = "_unset_" then { c0 with filterSubject := p.filterSubjectAns } else c0
  (c, { cfg with FilterSubject := c.filterSubject })

/-- Embedding of the max-deliver / max-ack-pending prompt block of
`prepareConfig` (lines 623-645): both are prompted for only when the ack
policy is not `AckNone` and the flag still carries its sentinel, the `-1`
sentinel for max-ack-pending then normalizes to 0, and the result is stored
in the configuration. -/
def tailMaxAckPending (c0 : consumerCmd) (p : Prompts) (cfg : api.ConsumerConfig) :
    consumerCmd × api.ConsumerConfig :=
  let c := if c0.maxDeliver = 0 ∧ cfg.AckPolicy ≠ api.AckPolicy.AckNone then
             { c0 with maxDeliver := p.maxDeliverAns } else c0
  let c := if c.maxAckPending = -1 ∧ cfg.AckPolicy ≠ api.AckPolicy.AckNone then
             { c with maxAckPending := p.maxAckPendingAns } else c
  let c := if c.maxAckPending = -1 then { c with maxAckPending := 0 } else c
  (c, { cfg with MaxAckPending := c.maxAckPending })

/-- Embedding of the max-deliver assignment of `prepareConfig`
(lines 647-649): the supplied value is applied only when the ack policy is
not `AckNone`. -/
def tailMaxDeliver (c : consumerCmd) (cfg : api.ConsumerConfig) : api.ConsumerConfig :=
  if c.maxDeliver ≠ 0 ∧ cfg.AckPolicy ≠ api.AckPolicy.AckNone then
    { cfg with MaxDeliver := c.maxDeliver } else cfg

/-- Embedding of the rate-limit block of `prepareConfig` (lines 651-655):
a positive rate limit on a pull-mode configuration is an error, otherwise the
rate limit is recorded. -/
def tailRateLimit (c : consumerCmd) (cfg : api.ConsumerConfig) :
    Except String api.ConsumerConfig :=
  if c.bpsRateLimit > 0 ∧ cfg.DeliverSubject = "" then Except.error msgRateLimitPush
  else Except.ok { cfg with RateLimit := c.bpsRateLimit }

/-- Embedding of the second half of `prepareConfig` (lines 578-656),
chaining the blocks above in source order. -/
def prepareConfigTail (c0 : consumerCmd) (p : Prompts) (cfg0 : api.ConsumerConfig) :
    Except String api.ConsumerConfig :=
  match tailAckPolicy c0 cfg0 with
  | Except.error e => Except.error e
  | Except.ok cfg =>
    let cfg := tailAckWait c0 cfg
    match tailSample c0 cfg with
    | Except.error e => Except.error e
    | Except.ok cfg =>
      match tailReplay c0 p cfg with
      | Except.error e => Except.error e
      | Except.ok (c, cfg) =>
        let cc := tailFilter c p cfg
        let cc := tailMaxAckPending cc.1 p cc.2
        let cfg := tailMaxDeliver cc.1 cc.2
        tailRateLimit cc.1 cfg

/-- Embedding of `prepareConfig` (lines 497-657).  `file` is the parsed
content of `--config` when supplied (lines 500-514; file read and JSON
decoding errors are outside this embedding's scope, so `file` is the
successfully decoded configuration). -/
def prepareConfig (c : consumerCmd) (file : Option api.ConsumerConfig) (p : Prompts)
    (parseDur : String → Option Int) (now : Int) : Except String api.ConsumerConfig :=
  match file with
  | Option.some fcfg =>
      if fcfg.Durable ≠ "" ∧ c.consumer ≠ "" ∧ fcfg.Durable ≠ c.consumer then
        Except.error msgNameMismatch
      else Except.ok fcfg
  | Option.none =>
      match prepareConfigFront c p parseDur now with
      | Except.error e => Except.error e
      | Except.ok (c, cfg) => prepareConfigTail c p cfg

/-- Modelled from the spec: the canonical serialized form of a consumer
configuration is an indented key-value structure (spec 4.2).  The JSON
encoder of `api.ConsumerConfig` lives in the external jsm.go api package, not
in this repository's sources, so the serialization is modelled as an ordered
association of field keys to typed values. -/
inductive JVal where
  | jstr (s : String)
  | jint (n : Int)
  | jnat (n : Nat)
  | jnull
deriving DecidableEq, Repr

/-- JSON name of each deliver policy value. -/
def deliverPolicyJson : api.DeliverPolicy → String
  | api.DeliverPolicy.DeliverAll => "all"
  | api.DeliverPolicy.DeliverLast => "last"
  | api.DeliverPolicy.DeliverNew => "new"
  | api.DeliverPolicy.DeliverByStartSequence => "by_start_sequence"
  | api.DeliverPolicy.DeliverByStartTime => "by_start_time"

/-- Inverse of `deliverPolicyJson` on its range. -/
def deliverPolicyOfJson (s : String) : Option api.DeliverPolicy :=
  if s = "all" then Option.some api.DeliverPolicy.DeliverAll
  else if s = "last" then Option.some api.DeliverPolicy.DeliverLast
  else if s = "new" then Option.some api.DeliverPolicy.DeliverNew
  else if s = "by_start_sequence" then Option.some api.DeliverPolicy.DeliverByStartSequence
  else if s = "by_start_time" then Option.some api.DeliverPolicy.DeliverByStartTime
  else Option.none

/-- JSON name of each ack policy value. -/
def ackPolicyJson : api.AckPolicy → String
  | api.AckPolicy.AckNone => "none"
  | api.AckPolicy.AckAll => "all"
  | api.AckPolicy.AckExplicit => "explicit"

/-- Inverse of `ackPolicyJson` on its range. -/
def ackPolicyOfJson (s : String) : Option api.AckPolicy :=
  if s = "none" then Option.some api.AckPolicy.AckNone
  else if s = "all" then Option.some api.AckPolicy.AckAll
  else if s = "explicit" then Option.some api.AckPolicy.AckExplicit
  else Option.none

/-- JSON name of each replay policy value. -/
def replayPolicyJson : api.ReplayPolicy → String
  | api.ReplayPolicy.ReplayInstant => "instant"
  | api.ReplayPolicy.ReplayOriginal => "original"

/-- Inverse of `replayPolicyJson` on its range. -/
def replayPolicyOfJson (s : String) : Option api.ReplayPolicy :=
  if s = "instant" then Option.some api.ReplayPolicy.ReplayInstant
  else if s = "original" then Option.some api.ReplayPolicy.ReplayOriginal
  else Option.none

/-- Modelled from the spec: canonical serialization of a configuration
(`json.MarshalIndent` in `validateCfg`, line 660), one key per field in the
declaration order of the api struct. -/
def serializeConfig (c : api.ConsumerConfig) : List (String × JVal) :=
  [("durable_name", JVal.jstr c.Durable),
   ("deliver_subject", JVal.jstr c.DeliverSubject),
   ("deliver_policy", JVal.jstr (deliverPolicyJson c.DeliverPolicy)),
   ("opt_start_seq", JVal.jnat c.OptStartSeq),
   ("opt_start_time", match c.OptStartTime with
                      | Option.none => JVal.jnull
                      | Option.some t => JVal.jint t),
   ("ack_policy", JVal.jstr (ackPolicyJson c.AckPolicy)),
   ("ack_wait", JVal.jint c.AckWait),
   ("max_deliver", JVal.jint c.MaxDeliver),
   ("filter_subject", JVal.jstr c.FilterSubject),
   ("replay_policy", JVal.jstr (replayPolicyJson c.ReplayPolicy)),
   ("sample_freq", JVal.jstr c.SampleFrequency),
   ("rate_limit_bps", JVal.jnat c.RateLimit),
   ("max_ack_pending", JVal.jint c.MaxAckPending)]

/-- Modelled from the spec: parsing of a canonically serialized configuration
(`json.Unmarshal` in `prepareConfig`, line 507, applied to the canonical file
produced by the create command). -/
def parseConfig : List (String × JVal) → Option api.ConsumerConfig
  | [("durable_name", JVal.jstr d), ("deliver_subject", JVal.jstr ds),
     ("deliver_policy", JVal.jstr dp), ("opt_start_seq", JVal.jnat oss),
     ("opt_start_time", ost), ("ack_policy", JVal.jstr ap),
     ("ack_wait", JVal.jint aw), ("max_deliver", JVal.jint md),
     ("filter_subject", JVal.jstr fs), ("replay_policy", JVal.jstr rp),
     ("sample_freq", JVal.jstr sf), ("rate_limit_bps", JVal.jnat rl),
     ("max_ack_pending", JVal.jint mp)] =>
      match deliverPolicyOfJson dp, ackPolicyOfJson ap, replayPolicyOfJson rp,
            (match ost with
             | JVal.jnull => Option.some (Option.none (α := Int))
             | JVal.jint t => Option.some (Option.some t)
             | _ => Option.none) with
      | Option.some dpv, Option.some apv, Option.some rpv, Option.some ostv =>
          Option.some
            { Durable := d, DeliverSubject := ds, DeliverPolicy := dpv,
              OptStartSeq := oss, OptStartTime := ostv, AckPolicy := apv,
              AckWait := aw, MaxDeliver := md, FilterSubject := fs,
              ReplayPolicy := rpv, SampleFrequency := sf, RateLimit := rl,
              MaxAckPending := mp }
      | _, _, _, _ => Option.none
  | _ => Option.none

/-- Embedding of `validateCfg` (lines 659-672).  `novalidate` models
`os.Getenv("NOVALIDATE") != ""`; `validator` models the external schema
validator `cfg.Validate(new(SchemaValidator))`.  The returned triple is
`(valid, serialized bytes, validation errors)`; the Go function first
marshals the config and then, under the bypass toggle, returns `nil` bytes,
discarding the serialization. -/
def validateCfg (novalidate : Bool) (validator : api.ConsumerConfig → Bool × List String)
    (cfg : api.ConsumerConfig) : Bool × List (String × JVal) × List String :=
  let j := serializeConfig cfg
  if novalidate then (true, [], [])
  else
    let v := validator cfg
    (v.1, j, v.2)

/-- Embedding of the `--output FILE` branch of `createAction` (lines
694-702): validate, abort on failure, otherwise the bytes written to the
output file are exactly the bytes returned by `validateCfg`. -/
def createActionOutFile (novalidate : Bool) (validator : api.ConsumerConfig → Bool × List String)
    (cfg : api.ConsumerConfig) : Except String (List (String × JVal)) :=
  let r := validateCfg novalidate validator cfg
  if r.1 then Except.ok r.2.1 else Except.error "Validation Failed"

/-- Embedding of the `--validate` branch of `createAction` (lines 681-692):
the serialized form printed to the terminal is the bytes returned by
`validateCfg` (printed before the validity check). -/
def createActionValidatePrinted (novalidate : Bool)
    (validator : api.ConsumerConfig → Bool × List String)
    (cfg : api.ConsumerConfig) : List (String × JVal) :=
  (validateCfg novalidate validator cfg).2.1

/-- Cluster snapshot of a consumer's runtime state (api.ClusterInfo as read
by `leaderStandDown`). -/
structure ClusterInfo where
  Leader : String
  Replicas : List String
deriving DecidableEq, Repr

/-- The part of a consumer's runtime state that `leaderStandDown` reads:
`info.Cluster` is `nil` exactly when the consumer is not clustered. -/
structure ConsumerState where
  Cluster : Option ClusterInfo
deriving DecidableEq, Repr

/-- Outcome of the leader step-down command. -/
inductive StandDownOutcome where
  | failed (msg : String)
  | blocked
  | newLeader (l : String)
deriving DecidableEq, Repr

def msgNotClustered : String := "consumer is not clustered"

def msgNoNewLeader : String := "consumer did not elect a new leader in time"

def msgStepDownFailed : String := "step down request failed"

/-- Embedding of the poll loop of `leaderStandDown` (lines 164-182).

Each iteration of the Go loop first receives from the channel of the timer
created by `time.NewTimer(500 * time.Millisecond)`; `ticks` is the number of
values that channel will ever deliver, so reaching `ticks = 0` with the loop
still running means the goroutine blocks forever on the channel receive.
`poll k` is the leader reported by the k-th `consumer.State()` call inside
the loop (`Option.none` models a fetch error, which is logged and the loop
continues).  `ctr` is the attempt counter checked against 5. -/
def standDownLoop (poll : Nat → Option String) (leader : String) :
    Nat → Nat → Nat → StandDownOutcome
  | 0, _, _ => StandDownOutcome.blocked
  | t + 1, ctr, k =>
      if ctr = 5 then StandDownOutcome.failed msgNoNewLeader
      else
        match poll k with
        | Option.none => standDownLoop poll leader t (ctr + 1) (k + 1)
        | Option.some l =>
            if l ≠ leader then StandDownOutcome.newLeader l
            else standDownLoop poll leader t (ctr + 1) (k + 1)

/-- A `time.Timer` channel delivers exactly one value; it is not a
`time.Ticker`.  This constant records the number of receives that the
`time.NewTimer(500 * time.Millisecond).C` channel of line 166 can ever
serve. -/
def newTimerTicks : Nat := 1

/-- Embedding of `leaderStandDown` (lines 140-191) from the point where the
consumer state has been loaded.  `st` is the state returned by
`consumer.State()`; `stepDownOk` tells whether the broker acknowledged
`consumer.LeaderStepDown()`.  The second component records whether a
step-down request was issued to the broker. -/
def leaderStandDown (st : ConsumerState) (stepDownOk : Bool)
    (poll : Nat → Option String) : StandDownOutcome × Bool :=
  match st.Cluster with
  | Option.none => (StandDownOutcome.failed msgNotClustered, false)
  | Option.some cl =>
      if stepDownOk then (standDownLoop poll cl.Leader newTimerTicks 0 0, true)
      else (StandDownOutcome.failed msgStepDownFailed, true)

/-- Acknowledgements sent by the push-mode subscription handler of
`subscribeConsumer` (lines 811-853): for every delivered message the handler
responds on its reply subject exactly when `c.ack` is set. -/
def subscribeConsumerAcks (ack : Bool) (msgs : List String) : List String :=
  msgs.filterMap (fun m => if ack then Option.some m else Option.none)

/-- Acknowledgement sent by the pull-mode fetch of `getNextMsgDirect`
(lines 772-795): at most one message is fetched and it is acknowledged
exactly when `c.ack` is set. -/
def getNextMsgDirectAcks (ack : Bool) (msgs : List String) : List String :=
  match msgs with
  | [] => []
  | m :: _ => if ack then [m] else []

/-- Embedding of `subAction` (lines 861-879): the `c.ack` flag is forced off
when the consumer's ack policy is `AckNone` (lines 867-869), then the pull or
push retrieval path runs.  The result is the list of messages for which an
acknowledgement was sent. -/
def subAction (ackPol : api.AckPolicy) (pullMode : Bool) (ack0 : Bool)
    (msgs : List String) : List String :=
  let ack := if ackPol = api.AckPolicy.AckNone then false else ack0
  if pullMode then getNextMsgDirectAcks ack msgs
  else subscribeConsumerAcks ack msgs

/-- A constant poll stream in which every state fetch succeeds and reports
the same leader n1. -/
def pollSame : Nat → Option String := fun _ => Option.some "n1"

/-- C6: parsing the canonical serialized form of any consumer configuration
yields that configuration back, so canonical-serialize, parse,
canonical-serialize is idempotent. -/
theorem parseConfig_serializeConfig (c : api.ConsumerConfig) :
    parseConfig (serializeConfig c) = Option.some c := by
  obtain ⟨d, ds, dp, oss, ost, ap, aw, md, fs, rp, sf, rl, mp⟩ := c
  cases dp <;> cases ap <;> cases rp <;> cases ost <;> rfl

/-- C8: when subscribing to a push consumer whose ack policy is `AckNone`,
no acknowledgement is ever sent for any sequence of received messages, even
when the caller requested acknowledgement (`ack0 = true`). -/
theorem subAction_ackNone_no_acks (ack0 : Bool) (msgs : List String) :
    subAction api.AckPolicy.AckNone false ack0 msgs = [] := by
  simp [subAction, subscribeConsumerAcks]

/-- C9: the leader step-down operation on a consumer whose runtime state
carries no cluster information fails with the not-clustered error, and no
step-down request is issued to the broker. -/
theorem leaderStandDown_notClustered (st : ConsumerState) (sd : Bool)
    (poll : Nat → Option String) (h : st.Cluster = Option.none) :
    leaderStandDown st sd poll = (StandDownOutcome.failed msgNotClustered, false) := by
  unfold leaderStandDown
  rw [h]

/-- Witness for `leaderStandDown_notClustered` at a concrete non-clustered
state. -/
theorem leaderStandDown_notClustered_witness :
    leaderStandDown ⟨Option.none⟩ true pollSame =
      (StandDownOutcome.failed msgNotClustered, false) :=
  leaderStandDown_notClustered ⟨Option.none⟩ true pollSame rfl

/-- C1: evaluation of the step-down poll loop when the leader never changes.
The loop ranges over the channel of a `time.Timer`, which delivers exactly
one value, so after the first unsuccessful attempt the loop blocks forever on
the channel receive; the attempt counter never reaches 5 and no
no-new-leader report is produced.  Had the channel delivered ticks
indefinitely (a `time.Ticker`, matching the loop's own `ctr` logic), the
same poll responses would end the loop after 5 attempts with the fatal
timeout error, as the second conjunct records. -/
theorem leaderStandDown_timer_blocks (leader : String) (reps : List String)
    (poll : Nat → Option String) (h : ∀ k, poll k = Option.some leader) :
    leaderStandDown ⟨Option.some ⟨leader, reps⟩⟩ true poll =
      (StandDownOutcome.blocked, true) ∧
    standDownLoop poll leader 6 0 0 = StandDownOutcome.failed msgNoNewLeader := by
  constructor
  · simp [leaderStandDown, newTimerTicks, standDownLoop, h 0]
  · simp [standDownLoop, h]

/-- Witness for `leaderStandDown_timer_blocks` with a constant broker
response. -/
theorem leaderStandDown_timer_blocks_witness :
    leaderStandDown ⟨Option.some ⟨"n1", ["n2", "n3"]⟩⟩ true pollSame =
      (StandDownOutcome.blocked, true) ∧
    standDownLoop pollSame "n1" 6 0 0 = StandDownOutcome.failed msgNoNewLeader :=
  leaderStandDown_timer_blocks "n1" ["n2", "n3"] pollSame (fun _ => rfl)

/-- C10: under the NOVALIDATE bypass toggle, `validateCfg` reports the
configuration valid but returns empty bytes for every configuration, so the
`--output` branch writes a zero-byte file and the `--validate` branch prints
an empty serialization, while the serialization computed and discarded by
`validateCfg` is never empty. -/
theorem validateCfg_novalidate_empty (validator : api.ConsumerConfig → Bool × List String)
    (cfg : api.ConsumerConfig) :
    validateCfg true validator cfg = (true, [], []) ∧
    createActionOutFile true validator cfg = Except.ok [] ∧
    createActionValidatePrinted true validator cfg = [] ∧
    serializeConfig cfg ≠ [] := by
  refine ⟨rfl, rfl, rfl, ?_⟩
  simp [serializeConfig]

/-- Frame property of `setStartPolicy`: only the deliver policy and its start
sequence / start time payload are ever written. -/
theorem setStartPolicy_frame (cfg D : api.ConsumerConfig) (s : String)
    (pd : String → Option Int) (now : Int)
    (h : setStartPolicy cfg s pd now = Except.ok D) :
    D.Durable = cfg.Durable ∧ D.DeliverSubject = cfg.DeliverSubject ∧
    D.AckPolicy = cfg.AckPolicy ∧ D.AckWait = cfg.AckWait ∧
    D.MaxDeliver = cfg.MaxDeliver ∧ D.FilterSubject = cfg.FilterSubject ∧
    D.ReplayPolicy = cfg.ReplayPolicy ∧ D.SampleFrequency = cfg.SampleFrequency ∧
    D.RateLimit = cfg.RateLimit ∧ D.MaxAckPending = cfg.MaxAckPending := by
  unfold setStartPolicy at h
  repeat' split at h
  all_goals cases h <;> simp

/-- Facts about the ack-policy resolution block of `prepareConfig`. -/
theorem tailAckPolicy_spec (c : consumerCmd) (cfg E : api.ConsumerConfig)
    (h : tailAckPolicy c cfg = Except.ok E) :
    (E.AckPolicy = api.AckPolicy.AckNone → E.MaxDeliver = -1) ∧
    E.Durable = cfg.Durable ∧ E.DeliverSubject = cfg.DeliverSubject ∧
    E.SampleFrequency = cfg.SampleFrequency := by
  unfold tailAckPolicy at h
  split at h
  · cases h
  · cases h
    split <;> simp_all

/-- Projections preserved by the ack-wait block of `prepareConfig`. -/
theorem tailAckWait_spec (c : consumerCmd) (cfg : api.ConsumerConfig) :
    (tailAckWait c cfg).Durable = cfg.Durable ∧
    (tailAckWait c cfg).DeliverSubject = cfg.DeliverSubject ∧
    (tailAckWait c cfg).AckPolicy = cfg.AckPolicy ∧
    (tailAckWait c cfg).MaxDeliver = cfg.MaxDeliver ∧
    (tailAckWait c cfg).SampleFrequency = cfg.SampleFrequency := by
  unfold tailAckWait
  split <;> simp

/-- Facts about the sampling block of `prepareConfig`: success implies the
percentage was at most 100, and non-positive percentages leave the sampling
field untouched. -/
theorem tailSample_spec (c : consumerCmd) (cfg E : api.ConsumerConfig)
    (h : tailSample c cfg = Except.ok E) :
    c.samplePct ≤ 100 ∧
    (c.samplePct ≤ 0 → E.SampleFrequency = cfg.SampleFrequency) ∧
    E.Durable = cfg.Durable ∧ E.DeliverSubject = cfg.DeliverSubject ∧
    E.AckPolicy = cfg.AckPolicy ∧ E.MaxDeliver = cfg.MaxDeliver := by
  unfold tailSample at h
  split at h
  · cases h
  next hg =>
    cases h
    refine ⟨by omega, ?_, ?_, ?_, ?_, ?_⟩
    · intro hs
      rw [if_neg (by omega)]
    all_goals split <;> simp

/-- Projections preserved by the replay block of `prepareConfig`, on both the
flag state and the configuration. -/
theorem tailReplay_spec (c0 : consumerCmd) (p : Prompts) (cfg : api.ConsumerConfig)
    (ce : consumerCmd × api.ConsumerConfig)
    (h : tailReplay c0 p cfg = Except.ok ce) :
    ce.1.bpsRateLimit = c0.bpsRateLimit ∧ ce.1.samplePct = c0.samplePct ∧
    ce.1.maxDeliver = c0.maxDeliver ∧ ce.1.maxAckPending = c0.maxAckPending ∧
    ce.1.filterSubject = c0.filterSubject ∧
    ce.2.Durable = cfg.Durable ∧ ce.2.DeliverSubject = cfg.DeliverSubject ∧
    ce.2.AckPolicy = cfg.AckPolicy ∧ ce.2.MaxDeliver = cfg.MaxDeliver ∧
    ce.2.SampleFrequency = cfg.SampleFrequency := by
  unfold tailReplay at h
  split at h <;> dsimp only at h <;>
    repeat' split at h
  all_goals cases h <;> simp

/-- Projections preserved by the filter block of `prepareConfig`. -/
theorem tailFilter_spec (c0 : consumerCmd) (p : Prompts) (cfg : api.ConsumerConfig) :
    (tailFilter c0 p cfg).1.bpsRateLimit = c0.bpsRateLimit ∧
    (tailFilter c0 p cfg).2.Durable = cfg.Durable ∧
    (tailFilter c0 p cfg).2.DeliverSubject = cfg.DeliverSubject ∧
    (tailFilter c0 p cfg).2.AckPolicy = cfg.AckPolicy ∧
    (tailFilter c0 p cfg).2.MaxDeliver = cfg.MaxDeliver ∧
    (tailFilter c0 p cfg).2.SampleFrequency = cfg.SampleFrequency := by
  unfold tailFilter
  split <;> simp

/-- Projections preserved by the max-ack-pending block of `prepareConfig`. -/
theorem tailMaxAckPending_spec (c0 : consumerCmd) (p : Prompts) (cfg : api.ConsumerConfig) :
    (tailMaxAckPending c0 p cfg).1.bpsRateLimit = c0.bpsRateLimit ∧
    (tailMaxAckPending c0 p cfg).2.Durable = cfg.Durable ∧
    (tailMaxAckPending c0 p cfg).2.DeliverSubject = cfg.DeliverSubject ∧
    (tailMaxAckPending c0 p cfg).2.AckPolicy = cfg.AckPolicy ∧
    (tailMaxAckPending c0 p cfg).2.MaxDeliver = cfg.MaxDeliver ∧
    (tailMaxAckPending c0 p cfg).2.SampleFrequency = cfg.SampleFrequency := by
  unfold tailMaxAckPending
  refine ⟨?_, rfl, rfl, rfl, rfl, rfl⟩
  dsimp only
  repeat' split
  all_goals rfl

/-- Facts about the max-deliver assignment of `prepareConfig`: it never fires
for `AckNone` and preserves all other fields. -/
theorem tailMaxDeliver_spec (c : consumerCmd) (cfg : api.ConsumerConfig) :
    (cfg.AckPolicy = api.AckPolicy.AckNone → (tailMaxDeliver c cfg).MaxDeliver = cfg.MaxDeliver) ∧
    (tailMaxDeliver c cfg).Durable = cfg.Durable ∧
    (tailMaxDeliver c cfg).DeliverSubject = cfg.DeliverSubject ∧
    (tailMaxDeliver c cfg).AckPolicy = cfg.AckPolicy ∧
    (tailMaxDeliver c cfg).SampleFrequency = cfg.SampleFrequency := by
  unfold tailMaxDeliver
  repeat' split
  all_goals simp_all

/-- Facts about the rate-limit block of `prepareConfig`: on success the rate
limit is recorded verbatim, and a positive rate limit implies push mode. -/
theorem tailRateLimit_spec (c : consumerCmd) (cfg E : api.ConsumerConfig)
    (h : tailRateLimit c cfg = Except.ok E) :
    E.RateLimit = c.bpsRateLimit ∧ E.Durable = cfg.Durable ∧
    E.DeliverSubject = cfg.DeliverSubject ∧ E.AckPolicy = cfg.AckPolicy ∧
    E.MaxDeliver = cfg.MaxDeliver ∧ E.SampleFrequency = cfg.SampleFrequency ∧
    (0 < c.bpsRateLimit → ¬ cfg.DeliverSubject = "") := by
  unfold tailRateLimit at h
  split at h
  · cases h
  next hg =>
    cases h
    simp_all

/-- Combined facts about the second half of `prepareConfig`: the `AckNone`
invariant on max-deliver, the verbatim rate limit, the untouched delivery
subject and durable name, the sampling bound, and the omitted sampling field
for non-positive percentages. -/
theorem prepareConfigTail_spec (c : consumerCmd) (p : Prompts) (cfg0 D : api.ConsumerConfig)
    (h : prepareConfigTail c p cfg0 = Except.ok D) :
    (D.AckPolicy = api.AckPolicy.AckNone → D.MaxDeliver = -1) ∧
    D.RateLimit = c.bpsRateLimit ∧
    D.DeliverSubject = cfg0.DeliverSubject ∧
    (0 < c.bpsRateLimit → ¬ D.DeliverSubject = "") ∧
    D.Durable = cfg0.Durable ∧
    c.samplePct ≤ 100 ∧
    (c.samplePct ≤ 0 → D.SampleFrequency = cfg0.SampleFrequency) := by
  unfold prepareConfigTail at h
  cases h1 : tailAckPolicy c cfg0 with
  | error e => rw [h1] at h; cases h
  | ok cfg1 =>
    rw [h1] at h
    dsimp only at h
    cases h2 : tailSample c (tailAckWait c cfg1) with
    | error e => rw [h2] at h; cases h
    | ok cfg2 =>
      rw [h2] at h
      dsimp only at h
      cases h3 : tailReplay c p cfg2 with
      | error e => rw [h3] at h; cases h
      | ok ce =>
        rw [h3] at h
        obtain ⟨c3, cfg3⟩ := ce
        dsimp only at h
        obtain ⟨hA1, hD1, hS1, hF1⟩ := tailAckPolicy_spec c cfg0 cfg1 h1
        obtain ⟨hD2, hS2, hA2, hM2, hF2⟩ := tailAckWait_spec c cfg1
        obtain ⟨hsam, hF3, hD3, hS3, hA3, hM3⟩ := tailSample_spec c (tailAckWait c cfg1) cfg2 h2
        obtain ⟨hb4, hsp4, hmd4, hma4, hfs4, hD4, hS4, hA4, hM4, hF4⟩ :=
          tailReplay_spec c p cfg2 (c3, cfg3) h3
        obtain ⟨hb5, hD5, hS5, hA5, hM5, hF5⟩ := tailFilter_spec c3 p cfg3
        obtain ⟨hb6, hD6, hS6, hA6, hM6, hF6⟩ :=
          tailMaxAckPending_spec (tailFilter c3 p cfg3).1 p (tailFilter c3 p cfg3).2
        obtain ⟨hMD7, hD7, hS7, hA7, hF7⟩ :=
          tailMaxDeliver_spec (tailMaxAckPending (tailFilter c3 p cfg3).1 p (tailFilter c3 p cfg3).2).1
            (tailMaxAckPending (tailFilter c3 p cfg3).1 p (tailFilter c3 p cfg3).2).2
        obtain ⟨hR8, hD8, hS8, hA8, hM8, hF8, hP8⟩ := tailRateLimit_spec _ _ D h
        refine ⟨?_, ?_, ?_, ?_, ?_, hsam, ?_⟩
        · intro hAck
          rw [hA8, hA7, hA6, hA5] at hAck
          rw [hM8, hMD7 (by rw [hA6, hA5]; exact hAck), hM6, hM5]
          rw [hA4] at hAck
          rw [hM4, hM3, hM2]
          rw [hA3, hA2] at hAck
          exact hA1 hAck
        · rw [hR8, hb6, hb5, hb4]
        · rw [hS8, hS7, hS6, hS5, hS4, hS3, hS2, hS1]
        · intro hbps
          rw [hS8, hS7, hS6, hS5, hS4, hS3, hS2, hS1]
          have := hP8 (by rw [hb6, hb5, hb4]; exact hbps)
          rw [hS7, hS6, hS5, hS4, hS3, hS2, hS1] at this
          exact this
        · rw [hD8, hD7, hD6, hD5, hD4, hD3, hD2, hD1]
        · intro hs
          rw [hF8, hF7, hF6, hF5, hF4, hF3 hs, hF2, hF1]

/-- Facts about the name-resolution block of `prepareConfig`: on success the
durable name passed the forbidden-character check and the configuration
starts from builder defaults. -/
theorem frontName_spec (c0 : consumerCmd) (p : Prompts) (ce : consumerCmd × api.ConsumerConfig)
    (h : frontName c0 p = Except.ok ce) :
    durableForbidden ce.2.Durable = false ∧
    ce.2.SampleFrequency = "" ∧
    ce.1.samplePct = c0.samplePct ∧ ce.1.bpsRateLimit = c0.bpsRateLimit := by
  unfold frontName at h
  dsimp only at h
  repeat' split at h
  all_goals cases h
  all_goals refine ⟨?_, rfl, rfl, rfl⟩
  all_goals simp_all

/-- Projections preserved by the mode-resolution block of `prepareConfig`. -/
theorem frontMode_spec (c0 : consumerCmd) (p : Prompts) (cfg0 : api.ConsumerConfig)
    (ce : consumerCmd × api.ConsumerConfig)
    (h : frontMode c0 p cfg0 = Except.ok ce) :
    ce.2.Durable = cfg0.Durable ∧ ce.2.SampleFrequency = cfg0.SampleFrequency ∧
    ce.1.samplePct = c0.samplePct ∧ ce.1.bpsRateLimit = c0.bpsRateLimit := by
  unfold frontMode at h
  dsimp only at h
  repeat' split at h
  all_goals cases h <;> simp

/-- Projections preserved by the start-policy block of `prepareConfig`. -/
theorem frontStart_spec (c0 : consumerCmd) (p : Prompts) (cfg0 : api.ConsumerConfig)
    (pd : String → Option Int) (now : Int) (ce : consumerCmd × api.ConsumerConfig)
    (h : frontStart c0 p cfg0 pd now = Except.ok ce) :
    ce.2.Durable = cfg0.Durable ∧ ce.2.SampleFrequency = cfg0.SampleFrequency ∧
    ce.1.samplePct = c0.samplePct ∧ ce.1.bpsRateLimit = c0.bpsRateLimit := by
  unfold frontStart at h
  dsimp only at h
  split at h
  · cases h
  next cfgS heq =>
    cases h
    obtain ⟨hd, _, _, _, _, _, _, hsf, _, _⟩ := setStartPolicy_frame _ _ _ _ _ heq
    refine ⟨hd, hsf, ?_, ?_⟩ <;> split <;> rfl

/-- Flag projections preserved by the ack/replay prompt fallbacks of
`prepareConfig`. -/
theorem frontPolicies_spec (c0 : consumerCmd) (p : Prompts) :
    (frontPolicies c0 p).samplePct = c0.samplePct ∧
    (frontPolicies c0 p).bpsRateLimit = c0.bpsRateLimit := by
  unfold frontPolicies
  dsimp only
  constructor <;> (repeat' split) <;> rfl

/-- Combined facts about the first half of `prepareConfig`: on success the
durable name is free of forbidden characters, the sampling field is still
empty, and the sample/rate-limit flags are unchanged. -/
theorem prepareConfigFront_spec (c0 : consumerCmd) (p : Prompts)
    (pd : String → Option Int) (now : Int) (ce : consumerCmd × api.ConsumerConfig)
    (h : prepareConfigFront c0 p pd now = Except.ok ce) :
    durableForbidden ce.2.Durable = false ∧
    ce.2.SampleFrequency = "" ∧
    ce.1.samplePct = c0.samplePct ∧ ce.1.bpsRateLimit = c0.bpsRateLimit := by
  unfold prepareConfigFront at h
  cases h1 : frontName c0 p with
  | error e => rw [h1] at h; cases h
  | ok ce1 =>
    rw [h1] at h
    obtain ⟨c1, cfg1⟩ := ce1
    dsimp only at h
    cases h2 : frontMode c1 p cfg1 with
    | error e => rw [h2] at h; cases h
    | ok ce2 =>
      rw [h2] at h
      obtain ⟨c2, cfg2⟩ := ce2
      dsimp only at h
      cases h3 : frontStart c2 p cfg2 pd now with
      | error e => rw [h3] at h; cases h
      | ok ce3 =>
        rw [h3] at h
        obtain ⟨c3, cfg3⟩ := ce3
        dsimp only at h
        cases h
        obtain ⟨hf1, hsf1, hsp1, hbp1⟩ := frontName_spec c0 p (c1, cfg1) h1
        obtain ⟨hd2, hsf2, hsp2, hbp2⟩ := frontMode_spec c1 p cfg1 (c2, cfg2) h2
        obtain ⟨hd3, hsf3, hsp3, hbp3⟩ := frontStart_spec c2 p cfg2 pd now (c3, cfg3) h3
        obtain ⟨hsp4, hbp4⟩ := frontPolicies_spec c3 p
        refine ⟨?_, ?_, ?_, ?_⟩
        · rw [hd3, hd2]; exact hf1
        · rw [hsf3, hsf2]; exact hsf1
        · rw [hsp4, hsp3, hsp2]; exact hsp1
        · rw [hbp4, hbp3, hbp2]; exact hbp1

/-- Projections preserved by the copy ack-wait override. -/
theorem cpAckWait_spec (c : consumerCmd) (cfg : api.ConsumerConfig) :
    (cpAckWait c cfg).Durable = cfg.Durable ∧
    (cpAckWait c cfg).SampleFrequency = cfg.SampleFrequency ∧
    (cpAckWait c cfg).RateLimit = cfg.RateLimit := by
  unfold cpAckWait
  split <;> simp

/-- Facts about the copy sampling override: zero stores the empty string and
only the sampling field is written. -/
theorem cpSample_spec (c : consumerCmd) (cfg E : api.ConsumerConfig)
    (h : cpSample c cfg = Except.ok E) :
    (c.samplePct = 0 → E.SampleFrequency = "") ∧
    E.Durable = cfg.Durable ∧ E.RateLimit = cfg.RateLimit := by
  unfold cpSample at h
  split at h
  · cases h
  next sf heq =>
    cases h
    refine ⟨?_, rfl, rfl⟩
    intro h0
    split at heq
    next hne =>
      rw [h0] at heq
      simp [sampleFreqFromString] at heq
      simp [heq]
    next hne =>
      exact absurd h0 (by omega)

/-- The copy sampling override aborts with the sampling error for every
explicitly supplied percentage outside `[0, 100]`. -/
theorem cpSample_error (c : consumerCmd) (cfg : api.ConsumerConfig)
    (hne : c.samplePct ≠ -1) (hout : c.samplePct < 0 ∨ 100 < c.samplePct) :
    cpSample c cfg = Except.error msgSamplePercent := by
  unfold cpSample sampleFreqFromString
  rw [if_pos hne, if_pos (by omega)]

/-- Projections preserved by the copy start-policy override. -/
theorem cpStart_spec (c : consumerCmd) (cfg E : api.ConsumerConfig)
    (pd : String → Option Int) (now : Int)
    (h : cpStart c cfg pd now = Except.ok E) :
    E.Durable = cfg.Durable ∧ E.SampleFrequency = cfg.SampleFrequency ∧
    E.RateLimit = cfg.RateLimit := by
  unfold cpStart at h
  split at h
  · obtain ⟨h1, _, _, _, _, _, _, h8, h9, _⟩ := setStartPolicy_frame _ _ _ _ _ h
    exact ⟨h1, h8, h9⟩
  · cases h
    exact ⟨rfl, rfl, rfl⟩

/-- The copy durable-name assignment: destination name, or empty for an
ephemeral copy; other fields preserved. -/
theorem cpDurable_spec (c : consumerCmd) (cfg : api.ConsumerConfig) :
    (cpDurable c cfg).Durable = (if c.ephemeral then "" else c.destination) ∧
    (cpDurable c cfg).SampleFrequency = cfg.SampleFrequency ∧
    (cpDurable c cfg).RateLimit = cfg.RateLimit := by
  unfold cpDurable
  split <;> simp_all

/-- Projections preserved by the copy delivery-target override. -/
theorem cpDelivery_spec (c : consumerCmd) (cfg : api.ConsumerConfig) :
    (cpDelivery c cfg).Durable = cfg.Durable ∧
    (cpDelivery c cfg).SampleFrequency = cfg.SampleFrequency ∧
    (cpDelivery c cfg).RateLimit = cfg.RateLimit := by
  unfold cpDelivery
  split <;> simp

/-- Projections preserved by the copy pull override. -/
theorem cpPull_spec (c : consumerCmd) (cfg : api.ConsumerConfig) :
    (cpPull c cfg).1.Durable = cfg.Durable ∧
    (cpPull c cfg).1.SampleFrequency = cfg.SampleFrequency ∧
    (cpPull c cfg).1.RateLimit = cfg.RateLimit := by
  unfold cpPull
  split <;> simp

/-- Projections preserved by the copy ack-policy override. -/
theorem cpAckPolicy_spec (s : String) (cfg E : api.ConsumerConfig)
    (h : cpAckPolicy s cfg = Except.ok E) :
    E.Durable = cfg.Durable ∧ E.SampleFrequency = cfg.SampleFrequency ∧
    E.RateLimit = cfg.RateLimit := by
  unfold cpAckPolicy at h
  repeat' split at h
  all_goals cases h <;> exact ⟨rfl, rfl, rfl⟩

/-- Projections preserved by the copy filter override. -/
theorem cpFilter_spec (c : consumerCmd) (cfg : api.ConsumerConfig) :
    (cpFilter c cfg).Durable = cfg.Durable ∧
    (cpFilter c cfg).SampleFrequency = cfg.SampleFrequency ∧
    (cpFilter c cfg).RateLimit = cfg.RateLimit := by
  unfold cpFilter
  split <;> simp

/-- Projections preserved by the copy replay override. -/
theorem cpReplay_spec (c : consumerCmd) (cfg E : api.ConsumerConfig)
    (h : cpReplay c cfg = Except.ok E) :
    E.Durable = cfg.Durable ∧ E.SampleFrequency = cfg.SampleFrequency ∧
    E.RateLimit = cfg.RateLimit := by
  unfold cpReplay at h
  repeat' split at h
  all_goals cases h <;> exact ⟨rfl, rfl, rfl⟩

/-- Projections preserved by the copy max-deliver override. -/
theorem cpMaxDeliver_spec (c : consumerCmd) (cfg : api.ConsumerConfig) :
    (cpMaxDeliver c cfg).Durable = cfg.Durable ∧
    (cpMaxDeliver c cfg).SampleFrequency = cfg.SampleFrequency ∧
    (cpMaxDeliver c cfg).RateLimit = cfg.RateLimit := by
  unfold cpMaxDeliver
  split <;> simp

/-- The copy rate-limit override applies unconditionally whenever a non-zero
rate limit was supplied, with no pull-mode check. -/
theorem cpRateLimit_spec (c : consumerCmd) (cfg : api.ConsumerConfig) :
    (cpRateLimit c cfg).Durable = cfg.Durable ∧
    (cpRateLimit c cfg).SampleFrequency = cfg.SampleFrequency ∧
    (cpRateLimit c cfg).RateLimit =
      (if c.bpsRateLimit ≠ 0 then c.bpsRateLimit else cfg.RateLimit) := by
  unfold cpRateLimit
  split <;> simp_all

/-- Projections preserved by the copy max-ack-pending override. -/
theorem cpMaxAckPending_spec (c : consumerCmd) (cfg : api.ConsumerConfig) :
    (cpMaxAckPending c cfg).Durable = cfg.Durable ∧
    (cpMaxAckPending c cfg).SampleFrequency = cfg.SampleFrequency ∧
    (cpMaxAckPending c cfg).RateLimit = cfg.RateLimit := by
  unfold cpMaxAckPending
  split <;> simp

/-- Combined facts about the copy resolution: the durable name is always the
destination (or empty when ephemeral), the rate limit is applied
unconditionally whenever non-zero, and a zero sample percentage empties the
sampling field. -/
theorem cpConfig_spec (c : consumerCmd) (cfg0 D : api.ConsumerConfig)
    (pd : String → Option Int) (now : Int)
    (h : cpConfig c cfg0 pd now = Except.ok D) :
    D.Durable = (if c.ephemeral then "" else c.destination) ∧
    D.RateLimit = (if c.bpsRateLimit ≠ 0 then c.bpsRateLimit else cfg0.RateLimit) ∧
    (c.samplePct = 0 → D.SampleFrequency = "") := by
  unfold cpConfig at h
  dsimp only at h
  cases h1 : cpSample c (cpAckWait c cfg0) with
  | error e => rw [h1] at h; cases h
  | ok cfg1 =>
    rw [h1] at h
    dsimp only at h
    cases h2 : cpStart c cfg1 pd now with
    | error e => rw [h2] at h; cases h
    | ok cfg2 =>
      rw [h2] at h
      dsimp only at h
      cases h3 : cpAckPolicy (cpPull c (cpDelivery c (cpDurable c cfg2))).2
          (cpPull c (cpDelivery c (cpDurable c cfg2))).1 with
      | error e => rw [h3] at h; cases h
      | ok cfg3 =>
        rw [h3] at h
        dsimp only at h
        cases h4 : cpReplay c (cpFilter c cfg3) with
        | error e => rw [h4] at h; cases h
        | ok cfg4 =>
          rw [h4] at h
          dsimp only at h
          cases h
          obtain ⟨hw1, hw2, hw3⟩ := cpAckWait_spec c cfg0
          obtain ⟨hs1, hs2, hs3⟩ := cpSample_spec c (cpAckWait c cfg0) cfg1 h1
          obtain ⟨ht1, ht2, ht3⟩ := cpStart_spec c cfg1 cfg2 pd now h2
          obtain ⟨hd1, hd2, hd3⟩ := cpDurable_spec c cfg2
          obtain ⟨he1, he2, he3⟩ := cpDelivery_spec c (cpDurable c cfg2)
          obtain ⟨hp1, hp2, hp3⟩ := cpPull_spec c (cpDelivery c (cpDurable c cfg2))
          obtain ⟨ha1, ha2, ha3⟩ := cpAckPolicy_spec _ _ cfg3 h3
          obtain ⟨hf1, hf2, hf3⟩ := cpFilter_spec c cfg3
          obtain ⟨hr1, hr2, hr3⟩ := cpReplay_spec c (cpFilter c cfg3) cfg4 h4
          obtain ⟨hm1, hm2, hm3⟩ := cpMaxDeliver_spec c cfg4
          obtain ⟨hl1, hl2, hl3⟩ := cpRateLimit_spec c (cpMaxDeliver c cfg4)
          obtain ⟨hk1, hk2, hk3⟩ := cpMaxAckPending_spec c (cpRateLimit c (cpMaxDeliver c cfg4))
          refine ⟨?_, ?_, ?_⟩
          · rw [hk1, hl1, hm1, hr1, hf1, ha1, hp1, he1, hd1]
          · rw [hk3, hl3, hm3, hr3, hf3, ha3, hp3, he3, hd3, ht3, hs3, hw3]
          · intro h0
            rw [hk2, hl2, hm2, hr2, hf2, ha2, hp2, he2, hd2, ht2]
            exact hs1 h0

/-- The whole copy resolution aborts with the sampling error for every
explicitly supplied percentage outside `[0, 100]`. -/
theorem cpConfig_sample_error (c : consumerCmd) (cfg0 : api.ConsumerConfig)
    (pd : String → Option Int) (now : Int)
    (hne : c.samplePct ≠ -1) (hout : c.samplePct < 0 ∨ 100 < c.samplePct) :
    cpConfig c cfg0 pd now = Except.error msgSamplePercent := by
  unfold cpConfig
  dsimp only
  rw [cpSample_error c (cpAckWait c cfg0) hne hout]

/-- Combined facts about the full flag-based create resolution (no config
file): the `AckNone` invariant, the verbatim rate limit and its pull-mode
rejection, the durable-name check and the sampling behaviour. -/
theorem prepareConfig_flags_spec (c : consumerCmd) (p : Prompts)
    (pd : String → Option Int) (now : Int) (D : api.ConsumerConfig)
    (h : prepareConfig c Option.none p pd now = Except.ok D) :
    (D.AckPolicy = api.AckPolicy.AckNone → D.MaxDeliver = -1) ∧
    D.RateLimit = c.bpsRateLimit ∧
    (0 < c.bpsRateLimit → ¬ D.DeliverSubject = "") ∧
    durableForbidden D.Durable = false ∧
    c.samplePct ≤ 100 ∧
    (c.samplePct ≤ 0 → D.SampleFrequency = "") := by
  unfold prepareConfig at h
  cases hf : prepareConfigFront c p pd now with
  | error e => rw [hf] at h; cases h
  | ok ce =>
    rw [hf] at h
    obtain ⟨c1, cfg1⟩ := ce
    dsimp only at h
    obtain ⟨hdf, hsf, hsp, hbp⟩ := prepareConfigFront_spec c p pd now (c1, cfg1) hf
    obtain ⟨t1, t2, t3, t4, t5, t6, t7⟩ := prepareConfigTail_spec c1 p cfg1 D h
    refine ⟨t1, ?_, ?_, ?_, ?_, ?_⟩
    · rw [t2, hbp]
    · intro hb
      exact t4 (by rw [hbp]; exact hb)
    · rw [t5]
      exact hdf
    · rw [← hsp]
      exact t6
    · intro hs
      rw [t7 (by rw [hsp]; exact hs)]
      exact hsf

def pdNone : String → Option Int := fun _ => Option.none

def promptsNone : Prompts := {}

def srcDefault : api.ConsumerConfig := {}

/-- C2 (amended): in the create resolution path without a config file, every
resolved configuration with ackPolicy `AckNone` has maxDeliver -1 regardless
of any supplied max-deliver value; the copy path and the file-based create
path do not enforce this. -/
theorem prepareConfig_ackNone_maxDeliver (c : consumerCmd) (p : Prompts)
    (pd : String → Option Int) (now : Int) (D : api.ConsumerConfig)
    (h : prepareConfig c Option.none p pd now = Except.ok D)
    (ha : D.AckPolicy = api.AckPolicy.AckNone) : D.MaxDeliver = -1 :=
  (prepareConfig_flags_spec c p pd now D h).1 ha

def c2Flags : consumerCmd :=
  { consumer := "X", delivery := "T", startPolicy := "all", ackPolicy := "none",
    replayPolicy := "instant", filterSubject := "f", maxDeliver := 3, maxAckPending := 10 }

def c2Result : api.ConsumerConfig :=
  { Durable := "X", DeliverSubject := "T", AckPolicy := api.AckPolicy.AckNone,
    MaxDeliver := -1, FilterSubject := "f", MaxAckPending := 10 }

/-- Witness for `prepareConfig_ackNone_maxDeliver`: a concrete create run
with ackPolicy none and a supplied max-deliver of 3 resolves to -1. -/
theorem prepareConfig_ackNone_maxDeliver_witness :
    prepareConfig c2Flags Option.none promptsNone pdNone 0 = Except.ok c2Result ∧
    c2Result.AckPolicy = api.AckPolicy.AckNone ∧ c2Result.MaxDeliver = -1 :=
  ⟨rfl, rfl, prepareConfig_ackNone_maxDeliver c2Flags promptsNone pdNone 0 c2Result rfl rfl⟩

def c2cpFlags : consumerCmd := { destination := "dst", ackPolicy := "none", maxDeliver := 5 }

def c2cpResult : api.ConsumerConfig :=
  { Durable := "dst", AckPolicy := api.AckPolicy.AckNone, MaxDeliver := 5 }

/-- C2 counterexample: the copy path accepts ackPolicy none together with a
supplied max-deliver of 5 and leaves max-deliver at 5, not -1. -/
theorem cpConfig_ackNone_maxDeliver_counterexample :
    cpConfig c2cpFlags srcDefault pdNone 0 = Except.ok c2cpResult ∧
    c2cpResult.AckPolicy = api.AckPolicy.AckNone ∧ ¬ c2cpResult.MaxDeliver = -1 :=
  ⟨rfl, rfl, by decide⟩

/-- C3 (amended): in the create path without a config file, the resolved
configuration carries the requested rate limit verbatim and a positive rate
limit forces push mode (pull mode is rejected with an error before any
config is produced); in the copy path the rate limit is applied
unconditionally whenever non-zero, with no pull-mode check. -/
theorem rateLimit_pull_handling :
    (∀ (c : consumerCmd) (p : Prompts) (pd : String → Option Int) (now : Int)
        (D : api.ConsumerConfig),
        prepareConfig c Option.none p pd now = Except.ok D →
        D.RateLimit = c.bpsRateLimit ∧ (0 < c.bpsRateLimit → ¬ D.DeliverSubject = "")) ∧
    (∀ (c : consumerCmd) (C : api.ConsumerConfig) (pd : String → Option Int) (now : Int)
        (D : api.ConsumerConfig),
        cpConfig c C pd now = Except.ok D →
        D.RateLimit = (if c.bpsRateLimit ≠ 0 then c.bpsRateLimit else C.RateLimit)) := by
  constructor
  · intro c p pd now D h
    obtain ⟨_, h2, h3, _, _, _⟩ := prepareConfig_flags_spec c p pd now D h
    exact ⟨h2, h3⟩
  · intro c C pd now D h
    exact (cpConfig_spec c C D pd now h).2.1

def c3Flags : consumerCmd :=
  { consumer := "X", delivery := "T", startPolicy := "all", ackPolicy := "explicit",
    replayPolicy := "instant", filterSubject := "f", maxDeliver := 3, maxAckPending := 10,
    bpsRateLimit := 700 }

def c3Result : api.ConsumerConfig :=
  { Durable := "X", DeliverSubject := "T", AckPolicy := api.AckPolicy.AckExplicit,
    MaxDeliver := 3, FilterSubject := "f", MaxAckPending := 10, RateLimit := 700 }

/-- Witness for `rateLimit_pull_handling`: a concrete push-mode create run
with a 700 bps rate limit keeps the limit and stays in push mode. -/
theorem rateLimit_pull_handling_witness :
    c3Result.RateLimit = 700 ∧ ¬ c3Result.DeliverSubject = "" := by
  have h := rateLimit_pull_handling.1 c3Flags promptsNone pdNone 0 c3Result rfl
  exact ⟨h.1, h.2 (by decide)⟩

def c3cpFlags : consumerCmd := { destination := "dst", pull := true, bpsRateLimit := 1000 }

def c3cpSrc : api.ConsumerConfig := { DeliverSubject := "orders.dest" }

def c3cpResult : api.ConsumerConfig :=
  { Durable := "dst", DeliverSubject := "", AckPolicy := api.AckPolicy.AckExplicit,
    RateLimit := 1000 }

/-- C3 counterexample: the copy path accepts pull mode together with a 1000
bps rate limit and silently sets the limit on the pull-mode configuration. -/
theorem cpConfig_rateLimit_pull_counterexample :
    cpConfig c3cpFlags c3cpSrc pdNone 0 = Except.ok c3cpResult ∧
    c3cpResult.DeliverSubject = "" ∧ c3cpResult.RateLimit = 1000 :=
  ⟨rfl, rfl, rfl⟩

/-- C4 (amended): only the flag-based create path guarantees that the
resolved durable name is free of the characters dot, star and gt; the
file-based create path passes the decoded configuration through without any
durable-name character check (and the copy path performs none either). -/
theorem prepareConfig_durable_name_check :
    (∀ (c : consumerCmd) (p : Prompts) (pd : String → Option Int) (now : Int)
        (D : api.ConsumerConfig),
        prepareConfig c Option.none p pd now = Except.ok D →
        durableForbidden D.Durable = false) ∧
    (∀ (c : consumerCmd) (f : api.ConsumerConfig) (p : Prompts)
        (pd : String → Option Int) (now : Int) (D : api.ConsumerConfig),
        prepareConfig c (Option.some f) p pd now = Except.ok D → D = f) := by
  constructor
  · intro c p pd now D h
    exact (prepareConfig_flags_spec c p pd now D h).2.2.2.1
  · intro c f p pd now D h
    unfold prepareConfig at h
    dsimp only at h
    split at h
    · cases h
    · cases h
      rfl

def c4Flags : consumerCmd :=
  { consumer := "orders-consumer", delivery := "T", startPolicy := "all",
    ackPolicy := "explicit", replayPolicy := "instant", filterSubject := "f",
    maxDeliver := 3, maxAckPending := 10 }

def c4Result : api.ConsumerConfig :=
  { Durable := "orders-consumer", DeliverSubject := "T",
    AckPolicy := api.AckPolicy.AckExplicit, MaxDeliver := 3, FilterSubject := "f",
    MaxAckPending := 10 }

/-- Witness for `prepareConfig_durable_name_check` at a concrete create
run. -/
theorem prepareConfig_durable_name_check_witness :
    durableForbidden c4Result.Durable = false :=
  prepareConfig_durable_name_check.1 c4Flags promptsNone pdNone 0 c4Result rfl

def c4cpFlags : consumerCmd := { destination := "a.b" }

def c4cpResult : api.ConsumerConfig := { Durable := "a.b" }

/-- C4 counterexample: copying to the destination name a.b produces a
configuration whose durable name contains a dot; no input was rejected. -/
theorem cpConfig_durable_forbidden_counterexample :
    cpConfig c4cpFlags srcDefault pdNone 0 = Except.ok c4cpResult ∧
    durableForbidden c4cpResult.Durable = true :=
  ⟨rfl, rfl⟩

/-- C7 (amended): the copy path rejects every explicitly supplied sample
percentage outside [0, 100] and omits the sampling field for 0; the create
path (without a config file) rejects only values above 100, while 0 and all
negative values (the sentinel included) silently resolve to an omitted
sampling field. -/
theorem sampleFrequency_range_handling :
    (∀ (c : consumerCmd) (C : api.ConsumerConfig) (pd : String → Option Int) (now : Int),
        c.samplePct ≠ -1 → (c.samplePct < 0 ∨ 100 < c.samplePct) →
        cpConfig c C pd now = Except.error msgSamplePercent) ∧
    (∀ (c : consumerCmd) (C : api.ConsumerConfig) (pd : String → Option Int) (now : Int)
        (D : api.ConsumerConfig),
        c.samplePct = 0 → cpConfig c C pd now = Except.ok D → D.SampleFrequency = "") ∧
    (∀ (c : consumerCmd) (p : Prompts) (pd : String → Option Int) (now : Int)
        (D : api.ConsumerConfig),
        prepareConfig c Option.none p pd now = Except.ok D → c.samplePct ≤ 100) ∧
    (∀ (c : consumerCmd) (p : Prompts) (pd : String → Option Int) (now : Int)
        (D : api.ConsumerConfig),
        c.samplePct ≤ 0 → prepareConfig c Option.none p pd now = Except.ok D →
        D.SampleFrequency = "") := by
  refine ⟨?_, ?_, ?_, ?_⟩
  · intro c C pd now hne hout
    exact cpConfig_sample_error c C pd now hne hout
  · intro c C pd now D h0 h
    exact (cpConfig_spec c C D pd now h).2.2 h0
  · intro c p pd now D h
    exact (prepareConfig_flags_spec c p pd now D h).2.2.2.2.1
  · intro c p pd now D hs h
    exact (prepareConfig_flags_spec c p pd now D h).2.2.2.2.2 hs

def c7cpFlags : consumerCmd := { destination := "dst", samplePct := 120 }

/-- Witness for `sampleFrequency_range_handling`: a concrete copy run with a
sample percentage of 120 aborts with the range error. -/
theorem sampleFrequency_range_handling_witness :
    cpConfig c7cpFlags srcDefault pdNone 0 = Except.error msgSamplePercent :=
  sampleFrequency_range_handling.1 c7cpFlags srcDefault pdNone 0 (by decide) (by decide)

def c7Flags : consumerCmd :=
  { consumer := "X", delivery := "T", startPolicy := "all", ackPolicy := "explicit",
    replayPolicy := "instant", filterSubject := "f", maxDeliver := 3, maxAckPending := 10,
    samplePct := -5 }

def c7Result : api.ConsumerConfig :=
  { Durable := "X", DeliverSubject := "T", AckPolicy := api.AckPolicy.AckExplicit,
    MaxDeliver := 3, FilterSubject := "f", MaxAckPending := 10 }

/-- C7 counterexample: the create path silently accepts the explicitly
supplied out-of-range sample percentage -5 and resolves it to an omitted
sampling field instead of rejecting it. -/
theorem prepareConfig_negative_sample_counterexample :
    c7Flags.samplePct = -5 ∧
    prepareConfig c7Flags Option.none promptsNone pdNone 0 = Except.ok c7Result ∧
    c7Result.SampleFrequency = "" :=
  ⟨rfl, rfl, rfl⟩

/-- Enumeration of the fields of a consumer configuration, used to state
frame properties of the copy operation. -/
inductive CField where
  | durable
  | deliverSubject
  | deliverPolicy
  | optStartSeq
  | optStartTime
  | ackPolicy
  | ackWait
  | maxDeliver
  | filterSubject
  | replayPolicy
  | sampleFrequency
  | rateLimit
  | maxAckPending
deriving DecidableEq, Repr

/-- Whether two configurations agree on one field. -/
def cfieldEq (f : CField) (x y : api.ConsumerConfig) : Bool :=
  match f with
  | CField.durable => decide (x.Durable = y.Durable)
  | CField.deliverSubject => decide (x.DeliverSubject = y.DeliverSubject)
  | CField.deliverPolicy => decide (x.DeliverPolicy = y.DeliverPolicy)
  | CField.optStartSeq => decide (x.OptStartSeq = y.OptStartSeq)
  | CField.optStartTime => decide (x.OptStartTime = y.OptStartTime)
  | CField.ackPolicy => decide (x.AckPolicy = y.AckPolicy)
  | CField.ackWait => decide (x.AckWait = y.AckWait)
  | CField.maxDeliver => decide (x.MaxDeliver = y.MaxDeliver)
  | CField.filterSubject => decide (x.FilterSubject = y.FilterSubject)
  | CField.replayPolicy => decide (x.ReplayPolicy = y.ReplayPolicy)
  | CField.sampleFrequency => decide (x.SampleFrequency = y.SampleFrequency)
  | CField.rateLimit => decide (x.RateLimit = y.RateLimit)
  | CField.maxAckPending => decide (x.MaxAckPending = y.MaxAckPending)

def allCFields : List CField :=
  [CField.durable, CField.deliverSubject, CField.deliverPolicy, CField.optStartSeq,
   CField.optStartTime, CField.ackPolicy, CField.ackWait, CField.maxDeliver,
   CField.filterSubject, CField.replayPolicy, CField.sampleFrequency,
   CField.rateLimit, CField.maxAckPending]

/-- Two configurations agree on every field outside `S`. -/
def agreesOutside (S : List CField) (x y : api.ConsumerConfig) : Bool :=
  allCFields.all (fun f => decide (f ∈ S) || cfieldEq f x y)

/-- The flag state of a copy invocation with only the required destination
argument supplied: every other flag carries its kingpin default. -/
def cpBaseFlags (dst : String) : consumerCmd := { destination := dst }

/-- One explicitly supplied override flag of the copy command. -/
inductive CpOverride where
  | target (s : String)
  | filter (s : String)
  | replay (s : String)
  | start (s : String)
  | ackPol (s : String)
  | wait (w : Int)
  | sample (n : Int)
  | ephem
  | pull
  | maxDel (n : Int)
  | bps (n : Nat)
  | maxPend (n : Int)
deriving DecidableEq, Repr

/-- The copy flag state with exactly one override supplied on top of the
defaults. -/
def applyOverride (dst : String) : CpOverride → consumerCmd
  | CpOverride.target s => { cpBaseFlags dst with delivery := s }
  | CpOverride.filter s => { cpBaseFlags dst with filterSubject := s }
  | CpOverride.replay s => { cpBaseFlags dst with replayPolicy := s }
  | CpOverride.start s => { cpBaseFlags dst with startPolicy := s }
  | CpOverride.ackPol s => { cpBaseFlags dst with ackPolicy := s }
  | CpOverride.wait w => { cpBaseFlags dst with ackWait := w }
  | CpOverride.sample n => { cpBaseFlags dst with samplePct := n }
  | CpOverride.ephem => { cpBaseFlags dst with ephemeral := true }
  | CpOverride.pull => { cpBaseFlags dst with pull := true }
  | CpOverride.maxDel n => { cpBaseFlags dst with maxDeliver := n }
  | CpOverride.bps n => { cpBaseFlags dst with bpsRateLimit := n }
  | CpOverride.maxPend n => { cpBaseFlags dst with maxAckPending := n }

/-- An override value is explicitly supplied (differs from the flag default
sentinel) and, for enums, parseable. -/
def validOverride : CpOverride → Bool
  | CpOverride.target s => decide (s ≠ "")
  | CpOverride.filter s => decide (s ≠ "_unset_")
  | CpOverride.replay s =>
      decide (toLowerStr s = "instant") || decide (toLowerStr s = "original")
  | CpOverride.start s => decide (s ≠ "")
  | CpOverride.ackPol s =>
      decide (toLowerStr s = "none") || decide (toLowerStr s = "all") ||
      decide (toLowerStr s = "explicit")
  | CpOverride.wait w => decide (0 < w)
  | CpOverride.sample n => decide (n ≠ -1) && decide (0 ≤ n) && decide (n ≤ 100)
  | CpOverride.ephem => true
  | CpOverride.pull => true
  | CpOverride.maxDel n => decide (n ≠ 0)
  | CpOverride.bps n => decide (n ≠ 0)
  | CpOverride.maxPend n => decide (n ≠ -1)

/-- The set of configuration fields a single override is allowed to write
(beyond the durable name, which every copy rewrites). -/
def footprint : CpOverride → List CField
  | CpOverride.target _ => [CField.deliverSubject]
  | CpOverride.filter _ => [CField.filterSubject]
  | CpOverride.replay _ => [CField.replayPolicy]
  | CpOverride.start _ => [CField.deliverPolicy, CField.optStartSeq, CField.optStartTime]
  | CpOverride.ackPol _ => [CField.ackPolicy]
  | CpOverride.wait _ => [CField.ackWait]
  | CpOverride.sample _ => [CField.sampleFrequency]
  | CpOverride.ephem => []
  | CpOverride.pull => [CField.deliverSubject, CField.ackPolicy]
  | CpOverride.maxDel _ => [CField.maxDeliver]
  | CpOverride.bps _ => [CField.rateLimit]
  | CpOverride.maxPend _ => [CField.maxAckPending]

/-- The durable name every copy result carries: the destination, or the
empty name when the ephemeral override is supplied. -/
def overrideDurable (dst : String) : CpOverride → String
  | CpOverride.ephem => ""
  | _ => dst

/-- Evaluation of the ack-policy parser on the literal forced by the pull
override. -/
theorem ackPolicyFromString_explicitLit :
    ackPolicyFromString "explicit" = Except.ok api.AckPolicy.AckExplicit := rfl

/-- C5 (amended): overriding a single explicitly supplied field F on a copy
of configuration C yields a configuration equal to C on every field outside
F's footprint, except that the durable name is always rewritten to the
destination (or cleared for an ephemeral copy); the pull override
additionally forces the explicit ack policy, and a start-policy override may
also write the start sequence or start time. -/
theorem cpAction_single_override_frame (C : api.ConsumerConfig) (dst : String) (o : CpOverride)
    (pd : String → Option Int) (now : Int) (D : api.ConsumerConfig)
    (hv : validOverride o = true)
    (hok : cpConfig (applyOverride dst o) C pd now = Except.ok D) :
    agreesOutside (CField.durable :: footprint o) C D = true ∧
    D.Durable = overrideDurable dst o := by
  cases o with
  | target s =>
    simp only [validOverride, decide_eq_true_eq] at hv
    simp only [cpConfig, cpAckWait, cpSample, cpStart, cpDurable, cpDelivery, cpPull,
      cpAckPolicy, cpFilter, cpReplay, cpMaxDeliver, cpRateLimit, cpMaxAckPending,
      applyOverride, cpBaseFlags] at hok
    simp [hv] at hok
    subst hok
    simp [agreesOutside, allCFields, cfieldEq, footprint, overrideDurable]
  | filter s =>
    simp only [validOverride, decide_eq_true_eq] at hv
    simp only [cpConfig, cpAckWait, cpSample, cpStart, cpDurable, cpDelivery, cpPull,
      cpAckPolicy, cpFilter, cpReplay, cpMaxDeliver, cpRateLimit, cpMaxAckPending,
      applyOverride, cpBaseFlags] at hok
    simp [hv] at hok
    subst hok
    simp [agreesOutside, allCFields, cfieldEq, footprint, overrideDurable]
  | replay s =>
    simp only [validOverride, Bool.or_eq_true, decide_eq_true_eq] at hv
    have hne : s ≠ "" := by
      intro h
      rcases hv with hv | hv <;> rw [h] at hv <;> exact absurd hv (by decide)
    rcases hv with hv | hv <;>
      simp only [cpConfig, cpAckWait, cpSample, cpStart, cpDurable, cpDelivery, cpPull,
        cpAckPolicy, cpFilter, cpReplay, cpMaxDeliver, cpRateLimit, cpMaxAckPending,
        applyOverride, cpBaseFlags, replayPolicyFromString] at hok <;>
      simp [hv, hne] at hok <;>
      subst hok <;>
      simp [agreesOutside, allCFields, cfieldEq, footprint, overrideDurable]
  | start s =>
    simp only [validOverride, decide_eq_true_eq] at hv
    simp only [cpConfig, cpAckWait, cpSample, cpStart, cpDurable, cpDelivery, cpPull,
      cpAckPolicy, cpFilter, cpReplay, cpMaxDeliver, cpRateLimit, cpMaxAckPending,
      applyOverride, cpBaseFlags] at hok
    simp [hv] at hok
    cases hsp : setStartPolicy C s pd now with
    | error e => rw [hsp] at hok; cases hok
    | ok E =>
      rw [hsp] at hok
      simp at hok
      subst hok
      obtain ⟨f1, f2, f3, f4, f5, f6, f7, f8, f9, f10⟩ := setStartPolicy_frame C E s pd now hsp
      simp [agreesOutside, allCFields, cfieldEq, footprint, overrideDurable, f1, f2, f3,
        f4, f5, f6, f7, f8, f9, f10]
  | ackPol s =>
    simp only [validOverride, Bool.or_eq_true, decide_eq_true_eq] at hv
    have hne : s ≠ "" := by
      intro h
      rcases hv with (hv | hv) | hv <;> rw [h] at hv <;> exact absurd hv (by decide)
    rcases hv with (hv | hv) | hv <;>
      simp only [cpConfig, cpAckWait, cpSample, cpStart, cpDurable, cpDelivery, cpPull,
        cpAckPolicy, cpFilter, cpReplay, cpMaxDeliver, cpRateLimit, cpMaxAckPending,
        applyOverride, cpBaseFlags, ackPolicyFromString] at hok <;>
      simp [hv, hne] at hok <;>
      subst hok <;>
      simp [agreesOutside, allCFields, cfieldEq, footprint, overrideDurable]
  | wait w =>
    simp only [validOverride, decide_eq_true_eq] at hv
    simp only [cpConfig, cpAckWait, cpSample, cpStart, cpDurable, cpDelivery, cpPull,
      cpAckPolicy, cpFilter, cpReplay, cpMaxDeliver, cpRateLimit, cpMaxAckPending,
      applyOverride, cpBaseFlags, hv] at hok
    simp [hv] at hok
    subst hok
    simp [agreesOutside, allCFields, cfieldEq, footprint, overrideDurable]
  | sample n =>
    simp only [validOverride, Bool.and_eq_true, decide_eq_true_eq] at hv
    obtain ⟨⟨hne, h0⟩, h100⟩ := hv
    simp only [cpConfig, cpAckWait, cpSample, cpStart, cpDurable, cpDelivery, cpPull,
      cpAckPolicy, cpFilter, cpReplay, cpMaxDeliver, cpRateLimit, cpMaxAckPending,
      applyOverride, cpBaseFlags, sampleFreqFromString] at hok
    simp [hne] at hok
    rw [if_neg (show ¬ (n > 100 ∨ n < 0) by omega)] at hok
    by_cases hpos : 0 < n
    · rw [if_pos hpos] at hok
      simp at hok
      subst hok
      simp [agreesOutside, allCFields, cfieldEq, footprint, overrideDurable]
    · rw [if_neg hpos] at hok
      simp at hok
      subst hok
      simp [agreesOutside, allCFields, cfieldEq, footprint, overrideDurable]
  | ephem =>
    simp only [cpConfig, cpAckWait, cpSample, cpStart, cpDurable, cpDelivery, cpPull,
      cpAckPolicy, cpFilter, cpReplay, cpMaxDeliver, cpRateLimit, cpMaxAckPending,
      applyOverride, cpBaseFlags] at hok
    simp at hok
    subst hok
    simp [agreesOutside, allCFields, cfieldEq, footprint, overrideDurable]
  | pull =>
    simp only [cpConfig, cpAckWait, cpSample, cpStart, cpDurable, cpDelivery, cpPull,
      cpAckPolicy, cpFilter, cpReplay, cpMaxDeliver, cpRateLimit, cpMaxAckPending,
      applyOverride, cpBaseFlags, ackPolicyFromString_explicitLit] at hok
    simp [ackPolicyFromString_explicitLit] at hok
    subst hok
    simp [agreesOutside, allCFields, cfieldEq, footprint, overrideDurable]
  | maxDel n =>
    simp only [validOverride, decide_eq_true_eq] at hv
    simp only [cpConfig, cpAckWait, cpSample, cpStart, cpDurable, cpDelivery, cpPull,
      cpAckPolicy, cpFilter, cpReplay, cpMaxDeliver, cpRateLimit, cpMaxAckPending,
      applyOverride, cpBaseFlags] at hok
    simp [hv] at hok
    subst hok
    simp [agreesOutside, allCFields, cfieldEq, footprint, overrideDurable]
  | bps n =>
    simp only [validOverride, decide_eq_true_eq] at hv
    simp only [cpConfig, cpAckWait, cpSample, cpStart, cpDurable, cpDelivery, cpPull,
      cpAckPolicy, cpFilter, cpReplay, cpMaxDeliver, cpRateLimit, cpMaxAckPending,
      applyOverride, cpBaseFlags] at hok
    simp [hv] at hok
    subst hok
    simp [agreesOutside, allCFields, cfieldEq, footprint, overrideDurable]
  | maxPend n =>
    simp only [validOverride, decide_eq_true_eq] at hv
    simp only [cpConfig, cpAckWait, cpSample, cpStart, cpDurable, cpDelivery, cpPull,
      cpAckPolicy, cpFilter, cpReplay, cpMaxDeliver, cpRateLimit, cpMaxAckPending,
      applyOverride, cpBaseFlags] at hok
    simp [hv] at hok
    subst hok
    simp [agreesOutside, allCFields, cfieldEq, footprint, overrideDurable]

def c5Src : api.ConsumerConfig :=
  { Durable := "src", DeliverSubject := "orders.out",
    DeliverPolicy := api.DeliverPolicy.DeliverLast, OptStartSeq := 0,
    OptStartTime := Option.none, AckPolicy := api.AckPolicy.AckAll, AckWait := 7,
    MaxDeliver := 4, FilterSubject := "f", ReplayPolicy := api.ReplayPolicy.ReplayOriginal,
    SampleFrequency := "20", RateLimit := 9, MaxAckPending := 3 }

def c5Result : api.ConsumerConfig := { c5Src with Durable := "dst", AckWait := 5 }

/-- C5 counterexample: copying configuration `c5Src` to destination dst with
only the ack-wait override supplied changes two fields, the overridden
ack-wait and the durable name, so the result is not equal to the source in
every field except the overridden one. -/
theorem cpConfig_copy_frame_counterexample :
    cpConfig (applyOverride "dst" (CpOverride.wait 5)) c5Src pdNone 0 =
      Except.ok c5Result ∧
    ¬ c5Result.AckWait = c5Src.AckWait ∧ ¬ c5Result.Durable = c5Src.Durable :=
  ⟨rfl, by decide, by decide⟩

/-- Witness for `cpAction_single_override_frame` at the ack-wait override. -/
theorem cpAction_single_override_frame_witness :
    agreesOutside (CField.durable :: footprint (CpOverride.wait 5)) c5Src c5Result = true ∧
    c5Result.Durable = overrideDurable "dst" (CpOverride.wait 5) :=
  cpAction_single_override_frame c5Src "dst" (CpOverride.wait 5) pdNone 0 c5Result
    (by decide) rfl
